import Mathlib

/-!
Verification of the quotation/RFQ lifecycle and numbering engine of the
`stm-be` backend.  Every definition below is a shallow embedding of a
function of the JavaScript source (file and line references in the doc
comments); machine state (the MongoDB collections) is passed explicitly
as Lean lists, asynchronous retries are given explicit fuel (a list of
database snapshots), and dates are integer millisecond timestamps.
-/

set_option autoImplicit false

deriving instance DecidableEq for Except

/-! ### Generic helpers -/

/-- Insertion-order deduplication, the behaviour of the JavaScript
`[...new Set(list)]` idiom: keeps the first occurrence of each element. -/
def jsSetDedupAux (seen : List Nat) : List Nat → List Nat
  | [] => []
  | a :: l => if a ∈ seen then jsSetDedupAux seen l else a :: jsSetDedupAux (a :: seen) l

/-- `[...new Set(list)]` over identifier lists. -/
def jsSetDedup (l : List Nat) : List Nat :=
  jsSetDedupAux [] l

/-- JavaScript `trim()`: whitespace stripped from both ends, written
over the character list so that it evaluates by kernel reduction. -/
def jsTrim (s : String) : String :=
  ⟨((s.data.dropWhile Char.isWhitespace).reverse.dropWhile Char.isWhitespace).reverse⟩

/-- JavaScript `toUpperCase()` (ASCII), character by character. -/
def jsToUpper (s : String) : String :=
  ⟨s.data.map Char.toUpper⟩

/-- `parseInt(digits, 10)` of a decimal digit run. -/
def digitsVal (l : List Char) : Nat :=
  l.foldl (fun acc c => acc * 10 + (c.toNat - 48)) 0

/-! ### Sequence generator

`generateRFQNumber` (src/utils/rfqHelper.js lines 4-54) and
`generateQuotationNumber` (quotation helper, src/unnamed/part_009 lines
148-199) are the same algorithm with different document-type tags.  The
month is converted to an uppercase Roman numeral through a fixed lookup
table; the numbers of the documents whose `createdAt` satisfies
`$gte new Date(year, month-1, 1)` and `$lte new Date(year, month, 0)`
are scanned with the regex `^(\d+)/DOC/STM/roman/year$`; the next
sequence is the maximum extracted integer plus one; and a final
existence re-check over the whole collection retries the whole
computation.  Note the upper bound: the JavaScript value
`new Date(year, month, 0)` is the last day of the month at
00:00:00.000, so documents created later on the last day of the month
fall inside the calendar bucket but outside the scan window. -/

/-- The fixed Roman-numeral lookup table of the source
(`romanMonths` object, rfqHelper.js lines 10-13). -/
def romanMonths (m : Nat) : String :=
  match m with
  | 1 => "I" | 2 => "II" | 3 => "III" | 4 => "IV" | 5 => "V" | 6 => "VI"
  | 7 => "VII" | 8 => "VIII" | 9 => "IX" | 10 => "X" | 11 => "XI" | 12 => "XII"
  | _ => ""

/-- Independent algorithmic Roman-numeral converter (standard subtractive
notation over the value table), used only to check the source's lookup
table against the conventional Roman numerals. -/
def romanAlg (fuel : Nat) (n : Nat) : String :=
  match fuel with
  | 0 => ""
  | fuel + 1 =>
    if n ≥ 10 then "X" ++ romanAlg fuel (n - 10)
    else if n ≥ 9 then "IX" ++ romanAlg fuel (n - 9)
    else if n ≥ 5 then "V" ++ romanAlg fuel (n - 5)
    else if n ≥ 4 then "IV" ++ romanAlg fuel (n - 4)
    else if n ≥ 1 then "I" ++ romanAlg fuel (n - 1)
    else ""

/-- Spec-level Roman numeral of a month number. -/
def romanSpec (m : Nat) : String :=
  romanAlg m m

/-- The regex match `^(\d+)suffix$`: the string must be a nonempty digit
run followed by exactly `suffix`; returns the leading integer. -/
def matchSeqNumber (suffix s : String) : Option Nat :=
  let digits := s.data.takeWhile Char.isDigit
  let rest := s.data.drop digits.length
  if digits ≠ [] ∧ rest = suffix.data then some (digitsVal digits) else none

/-- One step of the scan loop of the generators: keep the larger of the
accumulator and the leading integer of a matching number. -/
def hnStep (suffix : String) (acc : Nat) (n : String) : Nat :=
  match matchSeqNumber suffix n with
  | some k => if k > acc then k else acc
  | none => acc

/-- The scan loop of the generators: the largest leading integer among the
numbers that match the fixed format (0 when none match). -/
def highestNumber (suffix : String) (nums : List String) : Nat :=
  nums.foldl (hnStep suffix) 0

/-- A JavaScript `Date` value at the granularity the generators use:
calendar day plus milliseconds within the day.  Comparison is
lexicographic, which is order-isomorphic to the underlying timestamp
for valid dates. -/
structure JsDate where
  year : Nat
  month : Nat
  day : Nat
  msOfDay : Nat
  deriving Repr, DecidableEq

/-- Timestamp order on dates. -/
def JsDate.le (a b : JsDate) : Bool :=
  if a.year ≠ b.year then a.year < b.year
  else if a.month ≠ b.month then a.month < b.month
  else if a.day ≠ b.day then a.day < b.day
  else a.msOfDay ≤ b.msOfDay

/-- Gregorian leap year, as the JavaScript `Date` calendar uses. -/
def isLeapYear (y : Nat) : Bool :=
  (y % 4 == 0 && y % 100 != 0) || y % 400 == 0

/-- Days in a (1-based) month of the Gregorian calendar. -/
def daysInMonth (y m : Nat) : Nat :=
  match m with
  | 2 => if isLeapYear y then 29 else 28
  | 4 => 30 | 6 => 30 | 9 => 30 | 11 => 30
  | _ => 31

/-- `new Date(year, month - 1, 1)` for the 1-based month `m`: the first
day of the month at midnight. -/
def startOfMonth (y m : Nat) : JsDate :=
  { year := y, month := m, day := 1, msOfDay := 0 }

/-- `new Date(year, month, 0)` for the 1-based month `m`: JavaScript
normalises day 0 of the next month to the LAST day of month `m` at
00:00:00.000 — midnight at the start of the last day, not the end of
the month (the source names this `endOfMonth`). -/
def endOfMonth (y m : Nat) : JsDate :=
  { year := y, month := m, day := daysInMonth y m, msOfDay := 0 }

/-- One stored document of the scanned collection, as the generator
sees it: its creation instant and its document number. -/
structure StoredDoc where
  createdAt : JsDate
  number : String
  deriving Repr, DecidableEq

/-- One snapshot of the persistent store as seen by one attempt of the
generator: every document of the scanned collection (RFQs or quotation
headers) at that instant. -/
structure DbSnapshot where
  docs : List StoredDoc
  deriving Repr, DecidableEq

/-- Every stored number, as the `findOne` existence re-check sees the
collection (no date filter). -/
def allNumbers (snap : DbSnapshot) : List String :=
  snap.docs.map (fun d => d.number)

/-- The scan query of the generators (rfqHelper.js lines 17-25,
quotation helper lines 161-169): the numbers of the documents with
`createdAt` between `startOfMonth` and `endOfMonth` inclusive — the
upper bound being midnight at the start of the last day of the month. -/
def bucketScan (m y : Nat) (snap : DbSnapshot) : List String :=
  (snap.docs.filter (fun d =>
    JsDate.le (startOfMonth y m) d.createdAt &&
      JsDate.le d.createdAt (endOfMonth y m))).map (fun d => d.number)

/-- The fixed tail of a document number for a given type, month and year,
e.g. `"/RFQ/STM/IV/2026"`. -/
def numberSuffix (docType : String) (m y : Nat) : String :=
  "/" ++ docType ++ "/STM/" ++ romanMonths m ++ "/" ++ toString y

/-- One attempt of the generator: run the date-windowed scan, take the
maximum extracted integer plus one, format the full number
(rfqHelper.js lines 27-44, quotation helper lines 171-188). -/
def generateAttempt (docType : String) (m y : Nat) (snap : DbSnapshot) : String :=
  toString (highestNumber (numberSuffix docType m y) (bucketScan m y snap) + 1) ++
    numberSuffix docType m y

/-- The full generator with the retry-on-collision loop
(rfqHelper.js lines 46-53): each recursive retry reruns the whole
computation against the then-current store, modelled as the next
snapshot in the list.  `none` models exhausting the snapshots without
settling (the source recursion has no bound). -/
def generateNumber (docType : String) (m y : Nat) : List DbSnapshot → Option String
  | [] => none
  | snap :: rest =>
    let cand := generateAttempt docType m y snap
    if cand ∈ allNumbers snap then generateNumber docType m y rest else some cand

/-! ### Data model

Records of the five collections, with opaque identifiers as naturals,
prices as integers (JavaScript numbers used integrally by the engine)
and dates as integer millisecond timestamps. -/

/-- One Offer Item row (src/models/offerItem.model.js). -/
structure OfferItem where
  id : Nat
  quotationOfferId : Nat
  itemNumber : Nat
  karoseri : String
  chassis : String
  drawingSpecification : Option Nat
  specifications : List String
  price : Int
  discountType : String
  discountValue : Int
  netto : Int
  excludePPN : Bool
  isAccepted : Bool
  acceptedAt : Option Int
  acceptedBy : Option Nat
  quantity : Nat
  notes : String
  deriving Repr, DecidableEq

/-- One Quotation Offer row (src/models/quotationOffer.model.js),
including the cached totals maintained by the pre-save hook. -/
structure Offer where
  id : Nat
  quotationHeaderId : Nat
  offerNumber : String
  offerNumberInQuotation : Nat
  totalPrice : Int
  totalNetto : Int
  totalDiscount : Int
  excludePPN : Bool
  isFullyAccepted : Bool
  isPartiallyAccepted : Bool
  acceptedItemsCount : Nat
  totalItemsCount : Nat
  revision : Nat
  parentQuotationId : Option Nat
  notes : String
  notesImages : List Nat
  deriving Repr, DecidableEq

/-- The embedded `status` subdocument of a quotation header. -/
structure StatusField where
  type : String
  reason : String
  deriving Repr, DecidableEq

/-- One Quotation Header row (quotationHeader model). -/
structure QuotationHeader where
  id : Nat
  quotationNumber : String
  customerName : String
  contactPersonName : String
  requesterId : Nat
  approverId : Nat
  creatorId : Nat
  marketingName : String
  status : StatusField
  selectedOfferId : Option Nat
  selectedOfferItemIds : List Nat
  lastFollowUpDate : Option Int
  progress : List String
  deriving Repr, DecidableEq

/-- One RFQ row (rfq model, src/unnamed/part_011). -/
structure RFQDoc where
  id : Nat
  rfqNumber : String
  requesterId : Nat
  approverId : Nat
  quotationCreatorId : Nat
  status : String
  isApproved : Bool
  customerName : String
  contactPersonName : String
  approvalDecision : Option String
  approvalNotes : String
  approvedAt : Option Int
  rejectedAt : Option Int
  quotationId : Option Nat
  quotationCreatedAt : Option Int
  deriving Repr, DecidableEq

/-- One RFQ Item row (rfqItem model, src/unnamed/part_011). -/
structure RFQItemDoc where
  id : Nat
  rfqId : Nat
  itemNumber : Nat
  karoseri : String
  chassis : String
  drawingSpecification : Option Nat
  specifications : List String
  price : Int
  priceNet : Int
  notes : String
  deriving Repr, DecidableEq

/-! ### Offer totals recompute (the pre-save hook)

`quotationOfferSchema.pre('save')` (src/models/quotationOffer.model.js
lines 144-170): when the document is not new, reload the live Offer
Items of the offer and recompute every cached field from them; when the
document is new, skip the calculation entirely. -/

/-- The recomputation body of the pre-save hook (lines 151-164). -/
def recomputeTotals (o : Offer) (items : List OfferItem) : Offer :=
  let accepted := (items.filter (fun it => it.isAccepted)).length
  let price := (items.map (fun it => it.price)).sum
  let netto := (items.map (fun it => it.netto)).sum
  { o with
    totalItemsCount := items.length
    acceptedItemsCount := accepted
    totalPrice := price
    totalNetto := netto
    totalDiscount := price - netto
    isFullyAccepted := accepted == items.length && items.length > 0
    isPartiallyAccepted := 0 < accepted && accepted < items.length }

/-- The live Offer Items of an offer
(`OfferItem.find({ quotationOfferId: this._id })`). -/
def liveItems (o : Offer) (itemsDb : List OfferItem) : List OfferItem :=
  itemsDb.filter (fun it => it.quotationOfferId == o.id)

/-- Saving an offer: the pre-save hook skips the recomputation when the
document is new (lines 146-149), otherwise recomputes from the live
items. -/
def offerSave (isNew : Bool) (o : Offer) (itemsDb : List OfferItem) : Offer :=
  if isNew then o else recomputeTotals o (liveItems o itemsDb)

/-! ### Quotation status update

`PATCH /:quotationNumber/status` (src/routes/quotation.js lines
767-840).  The whole quotation (header, offers, items) is threaded as
one explicit state.  The route validates the reason for loss/close
before any write; on `win` with a selected offer it rewrites the
acceptance fields of every item of that offer; on any non-`win` status
it clears the selection on the header and the acceptance fields of
every item of every offer listed by `getQuotationOffers` (only offers
whose slot has a revision-0 original are listed, lines 566-573 of the
quotation helper).  No branch saves an offer document, so the cached
offer totals are never recomputed here. -/

/-- State of one quotation, plus the item store. -/
structure QuotationState where
  header : QuotationHeader
  offers : List Offer
  items : List OfferItem
  deriving Repr, DecidableEq

/-- Typed outcome of the status route. -/
inductive SetStatusResult where
  | validationError
  | ok (st : QuotationState)
  deriving Repr, DecidableEq

/-- The per-item update of the `win` branch (quotation.js lines
796-803): `isAccepted` becomes membership of the item in
`selectedOfferItemIds`; `acceptedAt`/`acceptedBy` are stamped on
selected items and cleared otherwise.  Items of other offers are left
alone. -/
def winUpdateItem (oid : Nat) (sel : List Nat) (now : Int) (userId : Nat)
    (it : OfferItem) : OfferItem :=
  if it.quotationOfferId == oid then
    let isSelected := it.id ∈ sel
    { it with
      isAccepted := isSelected
      acceptedAt := if isSelected then some now else none
      acceptedBy := if isSelected then some userId else none }
  else it

/-- Whether an offer of the header is listed by `getQuotationOffers`:
its slot must have a revision-0 original (quotation helper lines
549-573). -/
def inListedGroup (offers : List Offer) (headerId : Nat) (o : Offer) : Bool :=
  o.quotationHeaderId == headerId &&
    offers.any (fun o0 =>
      o0.quotationHeaderId == headerId && o0.revision == 0 &&
        o0.offerNumberInQuotation == o.offerNumberInQuotation)

/-- The acceptance clearing of the non-`win` branch (quotation.js lines
808-823): every item of every listed offer of the header loses its
acceptance fields. -/
def clearAcceptItem (offers : List Offer) (headerId : Nat) (it : OfferItem) : OfferItem :=
  if offers.any (fun o => o.id == it.quotationOfferId && inListedGroup offers headerId o) then
    { it with isAccepted := false, acceptedAt := none, acceptedBy := none }
  else it

/-- The status route.  `status`/`reason` model the request body fields
(`none`/`""` are the JavaScript falsy cases); `now` and `userId` are the
clock and the authenticated actor. -/
def setStatus (st : QuotationState) (status : String) (reason : Option String)
    (selectedOfferId : Option Nat) (selectedOfferItemIds : List Nat)
    (now : Int) (userId : Nat) : SetStatusResult :=
  if (status = "loss" ∨ status = "close") ∧ jsTrim (reason.getD "") = "" then
    .validationError
  else
    let newStatus : StatusField :=
      { type := if status = "" then "open" else status
        reason := reason.getD "" }
    match selectedOfferId with
    | some oid =>
      if status = "win" then
        .ok { st with
          header := { st.header with
            status := newStatus
            selectedOfferId := some oid
            selectedOfferItemIds := selectedOfferItemIds }
          items := st.items.map (winUpdateItem oid selectedOfferItemIds now userId) }
      else
        .ok { st with
          header := { st.header with
            status := newStatus
            selectedOfferId := none
            selectedOfferItemIds := [] }
          items := st.items.map (clearAcceptItem st.offers st.header.id) }
    | none =>
      if status = "win" then
        .ok { st with header := { st.header with status := newStatus } }
      else
        .ok { st with
          header := { st.header with
            status := newStatus
            selectedOfferId := none
            selectedOfferItemIds := [] }
          items := st.items.map (clearAcceptItem st.offers st.header.id) }

/-! ### RFQ approval state machine

`PATCH /:id/approve` (src/routes/rfq.js lines 341-388) and
`PATCH /:id/reject` (lines 396-435).  Guard order: missing RFQ → 404;
actor is not the RFQ's approver → 403; status is not `pending` → 400;
otherwise the update of `approveRFQ`/`rejectRFQ`
(src/utils/rfqHelper.js lines 180-209) is applied. -/

/-- Typed outcome of the approve/reject routes. -/
inductive RfqActionResult where
  | notFound
  | notAuthorized
  | invalidState
  | ok (rfq : RFQDoc)
  deriving Repr, DecidableEq

/-- The approve route. -/
def approveRoute (rfq : Option RFQDoc) (actorId : Nat) (notes : Option String)
    (now : Int) : RfqActionResult :=
  match rfq with
  | none => .notFound
  | some r =>
    if r.approverId ≠ actorId then .notAuthorized
    else if r.status ≠ "pending" then .invalidState
    else
      .ok { r with
        status := "approved"
        isApproved := true
        approvedAt := some now
        approvalDecision := some "bid"
        approvalNotes := notes.getD "" }

/-- The reject route. -/
def rejectRoute (rfq : Option RFQDoc) (actorId : Nat) (notes : Option String)
    (now : Int) : RfqActionResult :=
  match rfq with
  | none => .notFound
  | some r =>
    if r.approverId ≠ actorId then .notAuthorized
    else if r.status ≠ "pending" then .invalidState
    else
      .ok { r with
        status := "rejected"
        isApproved := false
        rejectedAt := some now
        approvalDecision := some "no_bid"
        approvalNotes := notes.getD "" }

/-! ### Offer number generation and offer creation

`generateOfferNumber` (quotation helper, src/unnamed/part_009 lines
202-267) and `createQuotationOffer` (lines 357-464). -/

/-- The character-level text before the first occurrence of a pattern
(the whole list when the pattern never occurs). -/
def beforeSub (pat : List Char) : List Char → List Char
  | [] => []
  | c :: rest => if pat.isPrefixOf (c :: rest) then [] else c :: beforeSub pat rest

/-- `parentOffer.offerNumber.split('-Rev')[0]`: the text before the
first `-Rev` occurrence. -/
def baseOfferNumber (s : String) : String :=
  ⟨beforeSub "-Rev".data s.data⟩

/-- The largest `revision` among the stored offers of the given header
slot with `revision > 0` (the `existingRevisions` query sorted
descending, lines 220-229); 0 when there is none. -/
def maxSlotRevision (offers : List Offer) (headerId slot : Nat) : Nat :=
  (offers.filter (fun o =>
      o.quotationHeaderId == headerId &&
        o.offerNumberInQuotation == slot && o.revision > 0)).foldl
    (fun acc o => if o.revision > acc then o.revision else acc) 0

/-- The largest `offerNumberInQuotation` among the revision-0 offers of
the header (lines 242-253); 0 when there is none. -/
def maxSlotNumber (offers : List Offer) (headerId : Nat) : Nat :=
  (offers.filter (fun o => o.quotationHeaderId == headerId && o.revision == 0)).foldl
    (fun acc o => if o.offerNumberInQuotation > acc then o.offerNumberInQuotation else acc) 0

/-- The revision branch of `generateOfferNumber` (lines 209-239):
base number of the parent plus `-Rev{maxSlotRevision + 1}`, rejected
when that exact string is already stored. -/
def genOfferNumberRevision (offers : List Offer) (headerId : Nat) (parent : Offer) :
    Except String (String × Nat) :=
  let base := baseOfferNumber parent.offerNumber
  let revision := maxSlotRevision offers headerId parent.offerNumberInQuotation + 1
  let offerNumber := base ++ "-Rev" ++ toString revision
  if offers.any (fun o => o.offerNumber == offerNumber) then
    .error ("Revision " ++ offerNumber ++ " already exists")
  else
    .ok (offerNumber, parent.offerNumberInQuotation)

/-- The new-offer branch of `generateOfferNumber` (lines 240-266):
`{quotationNumber}-{maxSlotNumber + 1}`, rejected when already stored. -/
def genOfferNumberNew (offers : List Offer) (headerId : Nat) (quotationNumber : String) :
    Except String (String × Nat) :=
  let slot := maxSlotNumber offers headerId + 1
  let offerNumber := quotationNumber ++ "-" ++ toString slot
  if offers.any (fun o => o.offerNumber == offerNumber) then
    .error ("Offer number " ++ offerNumber ++ " already exists")
  else
    .ok (offerNumber, slot)

/-- Caller-supplied offer-level data of `createQuotationOffer`
(the fields of `offerData` that reach the new `QuotationOffer` row;
the cached totals are caller-suppliable because the schema accepts
them and the pre-save hook skips new documents). -/
structure OfferInput where
  notes : String
  notesImages : List Nat
  excludePPN : Bool
  totalPrice : Int
  totalNetto : Int
  totalDiscount : Int
  totalItemsCount : Nat
  acceptedItemsCount : Nat
  isFullyAccepted : Bool
  isPartiallyAccepted : Bool
  deriving Repr, DecidableEq

/-- Neutral offer-level input: every schema default. -/
def OfferInput.default : OfferInput :=
  { notes := "", notesImages := [], excludePPN := false
    totalPrice := 0, totalNetto := 0, totalDiscount := 0
    totalItemsCount := 0, acceptedItemsCount := 0
    isFullyAccepted := false, isPartiallyAccepted := false }

/-- Caller-supplied data of one offer item inside
`offerData.offerItems`. -/
structure OfferItemInput where
  karoseri : String
  chassis : String
  drawingSpecification : Option Nat
  specifications : List String
  price : Int
  discountType : String
  discountValue : Int
  netto : Int
  excludePPN : Bool
  isAccepted : Bool
  quantity : Nat
  notes : String
  deriving Repr, DecidableEq

/-- `formatDataForStorage` applied to one offer item (quotation helper
lines 301-334): `karoseri` and `chassis` are trimmed and uppercased;
everything else passes through (the drawing reference is already an
optional id here). -/
def formatItemData (it : OfferItemInput) : OfferItemInput :=
  { it with
    karoseri := jsToUpper (jsTrim it.karoseri)
    chassis := jsToUpper (jsTrim it.chassis) }

/-- Materialise one `new OfferItem({...})` row of the creation loop
(lines 441-445): formatted input data, the new offer's id, sequential
item number. -/
def mkOfferItem (inp : OfferItemInput) (offerId itemId itemNumber : Nat) : OfferItem :=
  let f := formatItemData inp
  { id := itemId
    quotationOfferId := offerId
    itemNumber := itemNumber
    karoseri := f.karoseri
    chassis := f.chassis
    drawingSpecification := f.drawingSpecification
    specifications := f.specifications
    price := f.price
    discountType := f.discountType
    discountValue := f.discountValue
    netto := f.netto
    excludePPN := f.excludePPN
    isAccepted := f.isAccepted
    acceptedAt := none
    acceptedBy := none
    quantity := f.quantity
    notes := f.notes }

/-- The item-creation loop of `createQuotationOffer` (lines 425-450):
the i-th input becomes a row with `itemNumber = i + 1` and a fresh id. -/
def createItemRows (inputs : List OfferItemInput) (offerId nextId nextNumber : Nat) :
    List OfferItem :=
  match inputs with
  | [] => []
  | inp :: rest =>
    mkOfferItem inp offerId nextId nextNumber ::
      createItemRows rest offerId (nextId + 1) (nextNumber + 1)

/-- The creation tail of `createQuotationOffer` (lines 411-457): build
the offer row from the caller data and the computed
number/revision/lineage fields, save it (the document is new, so the
pre-save hook skips the totals), create the item rows, and — only when
at least one item was created — save the offer again, now recomputing
the totals from the live items. -/
def buildOfferAndItems (itemsDb : List OfferItem) (header : QuotationHeader)
    (input : OfferInput) (offerItems : List OfferItemInput)
    (newOfferId newItemIdBase : Nat) (offerNumber : String)
    (offerNumberInQuotation revision : Nat) (parentQuotationId : Option Nat)
    (notesImages : List Nat) : Offer × List OfferItem :=
  let offer : Offer :=
    { id := newOfferId
      quotationHeaderId := header.id
      offerNumber := offerNumber
      offerNumberInQuotation := offerNumberInQuotation
      totalPrice := input.totalPrice
      totalNetto := input.totalNetto
      totalDiscount := input.totalDiscount
      excludePPN := input.excludePPN
      isFullyAccepted := input.isFullyAccepted
      isPartiallyAccepted := input.isPartiallyAccepted
      acceptedItemsCount := input.acceptedItemsCount
      totalItemsCount := input.totalItemsCount
      revision := revision
      parentQuotationId := parentQuotationId
      notes := input.notes
      notesImages := notesImages }
  let offer := offerSave true offer itemsDb
  let newRows := createItemRows offerItems offer.id newItemIdBase 1
  if offerItems.length > 0 then
    (offerSave false offer (itemsDb ++ newRows), newRows)
  else
    (offer, newRows)

/-- `createQuotationOffer` (quotation helper lines 357-464) against an
explicit store.  `parentOfferId = some p` models the
`isRevision && parentOfferId` path (revision one past the parent's,
slot and lineage copied, images unioned without duplicates);
`newOfferId`/`newItemIdBase` stand for the store-assigned identifiers.
Returns the saved offer together with the new item rows, or the error
message thrown. -/
def createQuotationOffer (offers : List Offer) (itemsDb : List OfferItem)
    (header : QuotationHeader) (input : OfferInput)
    (offerItems : List OfferItemInput) (parentOfferId : Option Nat)
    (newOfferId newItemIdBase : Nat) : Except String (Offer × List OfferItem) :=
  match parentOfferId with
  | some pid =>
    match offers.find? (fun o => o.id == pid) with
    | none => .error "Parent offer not found"
    | some parent =>
      match genOfferNumberRevision offers header.id parent with
      | .error e => .error e
      | .ok (offerNumber, slot) =>
        .ok (buildOfferAndItems itemsDb header input offerItems newOfferId newItemIdBase
          offerNumber slot (parent.revision + 1) (some parent.id)
          (jsSetDedup (parent.notesImages ++ input.notesImages)))
  | none =>
    match genOfferNumberNew offers header.id header.quotationNumber with
    | .error e => .error e
    | .ok (offerNumber, slot) =>
      .ok (buildOfferAndItems itemsDb header input offerItems newOfferId newItemIdBase
        offerNumber slot 0 none input.notesImages)

/-! ### RFQ → Quotation conversion

`POST /` (src/routes/quotation.js lines 469-630) with an `rfqId`,
delegating to `createQuotationHeader` and `createQuotationOffer` of the
quotation helper.  The quotation number is allocated through
`generateQuotationNumber`, modelled by `generateNumber "QUO"` over
explicit snapshots. -/

/-- The per-item mapping of the conversion (quotation.js lines
516-527): RFQ item fields into an offer-item input, with
`netto ← priceNet` and percentage/0 discount defaults. -/
def rfqItemToOfferInput (it : RFQItemDoc) : OfferItemInput :=
  { karoseri := it.karoseri
    chassis := it.chassis
    drawingSpecification := it.drawingSpecification
    specifications := it.specifications
    price := it.price
    discountType := "percentage"
    discountValue := 0
    netto := it.priceNet
    excludePPN := false
    isAccepted := false
    quantity := 1
    notes := it.notes }

/-- Typed outcome of the conversion route. -/
inductive ConvertResult where
  | notFound
  | invalidState
  | notAuthorized
  | creationError (msg : String)
  | ok (header : QuotationHeader) (offer : Offer) (newItems : List OfferItem) (rfq : RFQDoc)
  deriving Repr, DecidableEq

/-- `createQuotationHeader` (quotation helper lines 338-354): format the
header data (customer name uppercased, contact name capitalised — the
latter kept abstract here since no claim touches it), allocate the
quotation number, stamp `lastFollowUpDate = now`. -/
def createQuotationHeaderRow (quotationNumber : String) (customerName contactPersonName : String)
    (requesterId approverId creatorId : Nat) (marketingName : String)
    (newHeaderId : Nat) (now : Int) : QuotationHeader :=
  { id := newHeaderId
    quotationNumber := quotationNumber
    customerName := jsToUpper (jsTrim customerName)
    contactPersonName := contactPersonName
    requesterId := requesterId
    approverId := approverId
    creatorId := creatorId
    marketingName := marketingName
    status := { type := "open", reason := "" }
    selectedOfferId := none
    selectedOfferItemIds := []
    lastFollowUpDate := some now
    progress := [] }

/-- The conversion branch of `POST /` with an `rfqId` (quotation.js
lines 474-586).  Guards in route order; then header creation, first
offer creation from the RFQ items, and the RFQ update to
`quotation_created`.  `offers`/`itemsDb` are the stores the offer
creation runs against, `snaps` the snapshots seen by the number
generator, `headerOverride` the caller's `headerData.customerName`
(empty string = absent, the JavaScript falsy check). -/
def convertRFQ (rfq : Option RFQDoc) (rfqItems : List RFQItemDoc)
    (actorId : Nat) (headerOverrideCustomer : String) (marketingName : String)
    (callerOfferInput : OfferInput) (callerOfferItems : List OfferItemInput)
    (offers : List Offer) (itemsDb : List OfferItem)
    (m y : Nat) (snaps : List DbSnapshot)
    (newHeaderId newOfferId newItemIdBase : Nat) (now : Int) : ConvertResult :=
  match rfq with
  | none => .notFound
  | some r =>
    if r.status ≠ "approved" then .invalidState
    else if r.quotationCreatorId ≠ actorId then .notAuthorized
    else
      let customerName :=
        if headerOverrideCustomer = "" then r.customerName else headerOverrideCustomer
      let offerItemInputs :=
        if rfqItems.length > 0 then rfqItems.map rfqItemToOfferInput else callerOfferItems
      match generateNumber "QUO" m y snaps with
      | none => .creationError "number generation did not settle"
      | some quotationNumber =>
        let header := createQuotationHeaderRow quotationNumber customerName
          r.contactPersonName r.requesterId r.approverId r.quotationCreatorId
          marketingName newHeaderId now
        match createQuotationOffer offers itemsDb header callerOfferInput
            offerItemInputs none newOfferId newItemIdBase with
        | .error msg => .creationError msg
        | .ok (offer, newItems) =>
          let updatedRfq := { r with
            status := "quotation_created"
            quotationId := some header.id
            quotationCreatedAt := some now }
          .ok header offer newItems updatedRfq

/-! ### Item deletion

`DELETE /:quotationNumber/offers/:offerId/items/:itemId`
(src/routes/quotation.js lines 1121-1153) deletes the item and re-saves
the offer (recomputing totals); it performs no renumbering of the
remaining items.  `deleteRFQItem` (src/utils/rfqHelper.js lines
276-298) deletes an RFQ item and then renumbers the remaining items of
that RFQ to a dense `1..N` sequence ordered by their prior
`itemNumber`. -/

/-- Outcome of the offer-item delete route: the updated item store and
offer store, or not-found. -/
inductive DeleteItemResult where
  | notFound
  | ok (itemsDb : List OfferItem) (offers : List Offer)
  deriving Repr, DecidableEq

/-- The offer-item delete route. -/
def deleteOfferItemRoute (itemsDb : List OfferItem) (offers : List Offer)
    (offerId itemId : Nat) : DeleteItemResult :=
  if itemsDb.any (fun it => it.id == itemId) then
    let remaining := itemsDb.filter (fun it => it.id ≠ itemId)
    let updatedOffers := offers.map (fun o =>
      if o.id == offerId then offerSave false o remaining else o)
    .ok remaining updatedOffers
  else .notFound

/-- Insertion into a list sorted by `itemNumber` ascending. -/
def insertByNumber (a : RFQItemDoc) : List RFQItemDoc → List RFQItemDoc
  | [] => [a]
  | b :: l =>
    if a.itemNumber ≤ b.itemNumber then a :: b :: l else b :: insertByNumber a l

/-- Sort RFQ items by `itemNumber` ascending (the
`.sort({ itemNumber: 1 })` of the remaining-items query). -/
def sortByNumber : List RFQItemDoc → List RFQItemDoc
  | [] => []
  | a :: l => insertByNumber a (sortByNumber l)

/-- The renumbering loop of `deleteRFQItem` (rfqHelper.js lines
285-292): the i-th remaining item, in prior `itemNumber` order, gets
`itemNumber = i + 1`. -/
def renumberDense (items : List RFQItemDoc) : List RFQItemDoc :=
  (sortByNumber items).enum.map (fun p => { p.2 with itemNumber := p.1 + 1 })

/-- `deleteRFQItem`: remove the item, renumber the remaining items of
the same RFQ densely, leave items of other RFQs alone.  Returns the
renumbered siblings of the deleted item paired with the untouched rest,
or an error when the item is missing. -/
def deleteRFQItem (items : List RFQItemDoc) (itemId : Nat) :
    Except String (List RFQItemDoc × List RFQItemDoc) :=
  match items.find? (fun it => it.id == itemId) with
  | none => .error "RFQ item not found"
  | some victim =>
    let remaining := items.filter (fun it => it.id ≠ itemId)
    let siblings := remaining.filter (fun it => it.rfqId == victim.rfqId)
    let others := remaining.filter (fun it => it.rfqId ≠ victim.rfqId)
    .ok (renumberDense siblings, others)

/-! ### Follow-up status

`getFollowUpStatus` (quotation helper, src/unnamed/part_009 lines
282-298).  Derived on every read (the header schema has no such
field); never persisted. -/

/-- The `{status, color, label}` object returned by
`getFollowUpStatus`. -/
structure FollowUpInfo where
  status : String
  color : String
  label : String
  deriving Repr, DecidableEq

/-- `"{d} day{s} ago"`. -/
def daysAgoLabel (d : Int) : String :=
  toString d ++ " day" ++ (if d ≠ 1 then "s" else "") ++ " ago"

/-- Milliseconds per day. -/
def msPerDay : Int := 24 * 60 * 60 * 1000

/-- `getFollowUpStatus`: unset date → danger "Never Followed Up";
otherwise the whole days elapsed (`Math.floor` of the millisecond
difference over one day, i.e. flooring division) select
good (≤ 3), warning (≤ 6) or danger. -/
def getFollowUpStatus (now : Int) (lastFollowUpDate : Option Int) : FollowUpInfo :=
  match lastFollowUpDate with
  | none => { status := "danger", color := "red", label := "Never Followed Up" }
  | some fu =>
    let d := (now - fu).fdiv msPerDay
    if d ≤ 3 then { status := "good", color := "green", label := daysAgoLabel d }
    else if d ≤ 6 then { status := "warning", color := "yellow", label := daysAgoLabel d }
    else { status := "danger", color := "red", label := daysAgoLabel d }

/-! ### Concrete example rows for witnesses and counterexamples -/

/-- A neutral Offer Item row. -/
def itemBase : OfferItem :=
  { id := 0, quotationOfferId := 0, itemNumber := 1, karoseri := "K", chassis := "C"
    drawingSpecification := none, specifications := [], price := 0
    discountType := "percentage", discountValue := 0, netto := 0, excludePPN := false
    isAccepted := false, acceptedAt := none, acceptedBy := none, quantity := 1, notes := "" }

/-- A neutral Offer row. -/
def offerBase : Offer :=
  { id := 0, quotationHeaderId := 0, offerNumber := "N", offerNumberInQuotation := 1
    totalPrice := 0, totalNetto := 0, totalDiscount := 0, excludePPN := false
    isFullyAccepted := false, isPartiallyAccepted := false
    acceptedItemsCount := 0, totalItemsCount := 0, revision := 0
    parentQuotationId := none, notes := "", notesImages := [] }

/-- A neutral Quotation Header row. -/
def headerBase : QuotationHeader :=
  { id := 0, quotationNumber := "Q", customerName := "CUST", contactPersonName := "Bob"
    requesterId := 1, approverId := 2, creatorId := 3, marketingName := "M"
    status := { type := "open", reason := "" }, selectedOfferId := none
    selectedOfferItemIds := [], lastFollowUpDate := none, progress := [] }

/-- A neutral RFQ row. -/
def rfqBase : RFQDoc :=
  { id := 0, rfqNumber := "R", requesterId := 1, approverId := 2, quotationCreatorId := 3
    status := "pending", isApproved := false, customerName := "cust"
    contactPersonName := "Bob", approvalDecision := none, approvalNotes := ""
    approvedAt := none, rejectedAt := none, quotationId := none, quotationCreatedAt := none }

/-- A neutral RFQ Item row. -/
def rfqItemBase : RFQItemDoc :=
  { id := 0, rfqId := 0, itemNumber := 1, karoseri := "K", chassis := "C"
    drawingSpecification := none, specifications := [], price := 0, priceNet := 0
    notes := "" }

/-! ### C9: follow-up status derivation -/

/-- Claim C9: the derived followUpStatus is danger/"Never Followed Up"
when `lastFollowUpDate` is unset; otherwise, with d the whole days
elapsed, it is good when d ≤ 3, warning when 4 ≤ d ≤ 6, and danger
when d ≥ 7. -/
theorem C9_followUpStatus (now fu : Int) :
    (getFollowUpStatus now none).status = "danger" ∧
    (getFollowUpStatus now none).label = "Never Followed Up" ∧
    ((now - fu).fdiv msPerDay ≤ 3 →
      (getFollowUpStatus now (some fu)).status = "good") ∧
    (4 ≤ (now - fu).fdiv msPerDay ∧ (now - fu).fdiv msPerDay ≤ 6 →
      (getFollowUpStatus now (some fu)).status = "warning") ∧
    (7 ≤ (now - fu).fdiv msPerDay →
      (getFollowUpStatus now (some fu)).status = "danger") := by
  refine ⟨rfl, rfl, ?_, ?_, ?_⟩
  · intro h
    simp only [getFollowUpStatus, if_pos h]
  · rintro ⟨h4, h6⟩
    have h3 : ¬ (now - fu).fdiv msPerDay ≤ 3 := by omega
    simp only [getFollowUpStatus, if_neg h3, if_pos h6]
  · intro h7
    have h3 : ¬ (now - fu).fdiv msPerDay ≤ 3 := by omega
    have h6 : ¬ (now - fu).fdiv msPerDay ≤ 6 := by omega
    simp only [getFollowUpStatus, if_neg h3, if_neg h6]

/-- Witness for C9 at concrete instants: unset date, and a follow-up
5 whole days old. -/
theorem C9_followUpStatus_witness :
    (getFollowUpStatus 0 none).status = "danger" ∧
    (getFollowUpStatus (5 * msPerDay) (some 0)).status = "warning" := by
  refine ⟨(C9_followUpStatus 0 0).1, ?_⟩
  exact (C9_followUpStatus (5 * msPerDay) 0).2.2.2.1 (by decide)

/-! ### C10: quantity does not weight the totals -/

/-- Claim C10: the recomputed totals sum each item's price and netto
exactly once regardless of the item's quantity — replacing any item's
quantity leaves every recomputed field identical. -/
theorem C10_quantityIrrelevant (o : Offer) (pre post : List OfferItem)
    (it : OfferItem) (q : Nat) :
    recomputeTotals o (pre ++ { it with quantity := q } :: post) =
      recomputeTotals o (pre ++ it :: post) := by
  cases h : it.isAccepted <;>
    simp [recomputeTotals, List.filter_append, List.filter_cons, List.map_append, h]

/-- Witness for C10: an item with quantity 5 contributes to the totals
exactly as much as the same item with quantity 1. -/
theorem C10_quantityIrrelevant_witness :
    recomputeTotals offerBase
        [{ itemBase with price := 100, netto := 90, quantity := 5 }] =
      recomputeTotals offerBase
        [{ itemBase with price := 100, netto := 90, quantity := 1 }] := by
  have h := C10_quantityIrrelevant offerBase []
    [] { itemBase with price := 100, netto := 90, quantity := 1 } 5
  simpa using h

/-! ### C8: reason required for loss/close -/

/-- The empty quotation state used by concrete status-route scenarios. -/
def c8St : QuotationState :=
  { header := headerBase, offers := [], items := [] }

/-- Claim C8: the status update with type loss or close and an empty or
missing reason fails with a validation error before any write; with a
non-empty reason it succeeds and stores the status. -/
theorem C8_statusReasonRequired (st : QuotationState) (status : String)
    (reason : Option String) (soid : Option Nat) (sel : List Nat)
    (now : Int) (uid : Nat) (hstat : status = "loss" ∨ status = "close") :
    (jsTrim (reason.getD "") = "" →
      setStatus st status reason soid sel now uid = .validationError) ∧
    (jsTrim (reason.getD "") ≠ "" →
      ∃ st2, setStatus st status reason soid sel now uid = .ok st2 ∧
        st2.header.status = { type := status, reason := reason.getD "" }) := by
  have hwin : ¬ status = "win" := by rcases hstat with h1 | h1 <;> simp [h1]
  have hempty : ¬ status = "" := by rcases hstat with h1 | h1 <;> simp [h1]
  constructor
  · intro h
    unfold setStatus
    rw [if_pos ⟨hstat, h⟩]
  · intro h
    have hne : ¬ ((status = "loss" ∨ status = "close") ∧ jsTrim (reason.getD "") = "") :=
      fun hc => h hc.2
    unfold setStatus
    cases soid with
    | some oid =>
      simp only [if_neg hne, if_neg hwin, if_neg hempty]
      exact ⟨_, rfl, rfl⟩
    | none =>
      simp only [if_neg hne, if_neg hwin, if_neg hempty]
      exact ⟨_, rfl, rfl⟩

/-- Witness for C8: a concrete loss update without reason is rejected,
and the same update with a non-empty reason goes through. -/
theorem C8_statusReasonRequired_witness :
    setStatus c8St "loss" none none [] 0 0 = .validationError ∧
    ∃ st2, setStatus c8St "loss" (some "price too high") none [] 0 0 = .ok st2 ∧
      st2.header.status = { type := "loss", reason := "price too high" } := by
  constructor
  · exact (C8_statusReasonRequired c8St "loss" none none [] 0 0 (Or.inl rfl)).1 (by decide)
  · exact (C8_statusReasonRequired c8St "loss" (some "price too high") none [] 0 0
      (Or.inl rfl)).2 (by decide)

/-! ### C2: totals recompute on save -/

/-- Counterexample to C2 as stated: the first save of a new Offer skips
the recomputation (pre-save hook, quotationOffer.model.js lines
146-149), so a caller-supplied `totalPrice` of 999 survives a save even
though recomputing from the (empty) live item set would give 0 — the
cached fields are not recomputed on every save and caller input is
trusted for new documents. -/
theorem C2_counterexample :
    (offerSave true { offerBase with totalPrice := 999 } []).totalPrice = 999 ∧
    (recomputeTotals { offerBase with totalPrice := 999 } []).totalPrice = 0 := by
  decide

/-- Claim C2 amended: on every save of an already-persisted Offer
(`isNew = false`) the cached fields are recomputed from the live Offer
Items by the stated formulas, the caller-supplied cached values are
ignored, and the recomputation is idempotent; only the first save of a
new document skips the recomputation. -/
theorem C2_recomputeOnSave (o : Offer) (itemsDb : List OfferItem)
    (p n d : Int) (ti ai : Nat) (fa pa : Bool) :
    (offerSave false o itemsDb).totalItemsCount = (liveItems o itemsDb).length ∧
    (offerSave false o itemsDb).acceptedItemsCount =
      ((liveItems o itemsDb).filter (fun it => it.isAccepted)).length ∧
    (offerSave false o itemsDb).totalPrice =
      ((liveItems o itemsDb).map (fun it => it.price)).sum ∧
    (offerSave false o itemsDb).totalNetto =
      ((liveItems o itemsDb).map (fun it => it.netto)).sum ∧
    (offerSave false o itemsDb).totalDiscount =
      (offerSave false o itemsDb).totalPrice - (offerSave false o itemsDb).totalNetto ∧
    ((offerSave false o itemsDb).isFullyAccepted = true ↔
      (offerSave false o itemsDb).acceptedItemsCount =
          (offerSave false o itemsDb).totalItemsCount ∧
        0 < (offerSave false o itemsDb).totalItemsCount) ∧
    ((offerSave false o itemsDb).isPartiallyAccepted = true ↔
      0 < (offerSave false o itemsDb).acceptedItemsCount ∧
        (offerSave false o itemsDb).acceptedItemsCount <
          (offerSave false o itemsDb).totalItemsCount) ∧
    offerSave false
        { o with totalPrice := p, totalNetto := n, totalDiscount := d
                 totalItemsCount := ti, acceptedItemsCount := ai
                 isFullyAccepted := fa, isPartiallyAccepted := pa } itemsDb =
      offerSave false o itemsDb ∧
    offerSave false (offerSave false o itemsDb) itemsDb = offerSave false o itemsDb := by
  refine ⟨rfl, rfl, rfl, rfl, rfl, ?_, ?_, ?_, ?_⟩
  · simp [offerSave, recomputeTotals]
  · simp [offerSave, recomputeTotals]
  · simp [offerSave, recomputeTotals, liveItems]
  · simp [offerSave, recomputeTotals, liveItems]

/-! ### C3: the sequence generator -/

/-- The scan computes the maximum of the extracted leading integers. -/
theorem foldl_hnStep_eq_max (suffix : String) (nums : List String) :
    ∀ acc, nums.foldl (hnStep suffix) acc =
      (nums.filterMap (matchSeqNumber suffix)).foldl max acc := by
  induction nums with
  | nil => intro acc; rfl
  | cons n l ih =>
    intro acc
    simp only [List.foldl_cons, List.filterMap_cons]
    cases h : matchSeqNumber suffix n with
    | none =>
      have hs : hnStep suffix acc n = acc := by simp only [hnStep, h]
      rw [hs, ih]
    | some k =>
      have hs : hnStep suffix acc n = max acc k := by
        simp only [hnStep, h]
        split <;> omega
      rw [hs, List.foldl_cons, ih]

/-- `highestNumber` is the maximum of the extracted integers (0 default). -/
theorem highestNumber_eq_max (suffix : String) (nums : List String) :
    highestNumber suffix nums =
      (nums.filterMap (matchSeqNumber suffix)).foldl max 0 :=
  foldl_hnStep_eq_max suffix nums 0

/-- Unfolding equation of the generator on a nonempty snapshot list. -/
theorem generateNumber_cons (docType : String) (m y : Nat) (snap : DbSnapshot)
    (rest : List DbSnapshot) :
    generateNumber docType m y (snap :: rest) =
      if generateAttempt docType m y snap ∈ allNumbers snap then
        generateNumber docType m y rest
      else some (generateAttempt docType m y snap) := rfl

/-- Membership of an instant in the calendar month/year bucket. -/
def inCalendarBucket (m y : Nat) (d : JsDate) : Bool :=
  d.year == y && d.month == m

/-- A document numbered 5 created at noon on the last day of January
2026 — inside the calendar bucket, outside the scan window. -/
def c3LastDayDoc : StoredDoc :=
  { createdAt := { year := 2026, month := 1, day := 31, msOfDay := 43200000 }
    number := "5/RFQ/STM/I/2026" }

/-- A document numbered 1 created the same afternoon. -/
def c3CollideDoc : StoredDoc :=
  { createdAt := { year := 2026, month := 1, day := 31, msOfDay := 50400000 }
    number := "1/RFQ/STM/I/2026" }

/-- Counterexample to C3 as stated: the scan's upper bound
`new Date(year, month, 0)` is midnight at the START of the last day of
the month, so a number created at noon on 2026-01-31 lies inside the
calendar bucket and matches the fixed format, yet the scan misses it:
the generator returns 1, not the bucket maximum plus one (6).  When
the missed number collides with the candidate (second store), the
re-check keeps retrying the identical computation and never settles. -/
theorem C3_counterexample :
    inCalendarBucket 1 2026 c3LastDayDoc.createdAt = true ∧
    matchSeqNumber (numberSuffix "RFQ" 1 2026) c3LastDayDoc.number = some 5 ∧
    bucketScan 1 2026 ⟨[c3LastDayDoc]⟩ = [] ∧
    generateNumber "RFQ" 1 2026 [⟨[c3LastDayDoc]⟩] = some "1/RFQ/STM/I/2026" ∧
    toString (highestNumber (numberSuffix "RFQ" 1 2026) [c3LastDayDoc.number] + 1) ++
        numberSuffix "RFQ" 1 2026 = "6/RFQ/STM/I/2026" ∧
    ("1/RFQ/STM/I/2026" : String) ≠ "6/RFQ/STM/I/2026" ∧
    generateNumber "RFQ" 1 2026
      (List.replicate 5 ⟨[c3LastDayDoc, c3CollideDoc]⟩) = none := by
  decide

/-- Claim C3 amended: for either document type and any instant, the
generator converts the month to the correct uppercase Roman numeral
(checked against an independent algorithmic converter) for all 12
months, scans the numbers of the documents created between the start
of the month and midnight at the start of its LAST day — the query
bound `new Date(year, month, 0)`, so documents created later on the
last day belong to the calendar bucket but are not scanned — extracts
the leading integer of every scanned number matching the fixed format,
returns the maximum plus one in the full format, and when the
candidate already exists anywhere in the store retries the whole
computation against the next store state. -/
theorem C3_sequenceGenerator (docType : String) (m y : Nat)
    (snaps : List DbSnapshot) (s : String) (hm1 : 1 ≤ m) (hm2 : m ≤ 12) :
    romanMonths m = romanSpec m ∧
    endOfMonth y m = { year := y, month := m, day := daysInMonth y m, msOfDay := 0 } ∧
    (∀ snap, bucketScan m y snap =
      (snap.docs.filter (fun d =>
        JsDate.le (startOfMonth y m) d.createdAt &&
          JsDate.le d.createdAt (endOfMonth y m))).map (fun d => d.number)) ∧
    (∀ snap rest, snaps = snap :: rest →
      generateAttempt docType m y snap ∈ allNumbers snap →
      generateNumber docType m y snaps = generateNumber docType m y rest) ∧
    (generateNumber docType m y snaps = some s →
      ∃ snap, snap ∈ snaps ∧
        s ∉ allNumbers snap ∧
        s = toString
              (highestNumber (numberSuffix docType m y) (bucketScan m y snap) + 1) ++
              numberSuffix docType m y ∧
        numberSuffix docType m y =
          "/" ++ docType ++ "/STM/" ++ romanMonths m ++ "/" ++ toString y ∧
        highestNumber (numberSuffix docType m y) (bucketScan m y snap) =
          ((bucketScan m y snap).filterMap
            (matchSeqNumber (numberSuffix docType m y))).foldl max 0) := by
  refine ⟨?_, rfl, fun snap => rfl, ?_, ?_⟩
  · interval_cases m <;> rfl
  · intro snap rest hsnaps hmem
    subst hsnaps
    rw [generateNumber_cons, if_pos hmem]
  · induction snaps with
    | nil => intro h; exact absurd h (by simp [generateNumber])
    | cons snap rest ih =>
      intro h
      rw [generateNumber_cons] at h
      by_cases hmem : generateAttempt docType m y snap ∈ allNumbers snap
      · rw [if_pos hmem] at h
        obtain ⟨snap2, h1, h2⟩ := ih h
        exact ⟨snap2, List.mem_cons_of_mem _ h1, h2⟩
      · rw [if_neg hmem] at h
        injection h with h
        refine ⟨snap, List.mem_cons_self _ _, ?_, ?_, rfl, highestNumber_eq_max _ _⟩
        · rw [← h]; exact hmem
        · rw [← h]; rfl

/-- Witness for C3 amended in April: with numbers 2 and 7 (and one
junk-numbered document) created mid-month — inside the scan window —
the generator settles on 8 with Roman numeral IV. -/
theorem C3_sequenceGenerator_witness :
    generateNumber "RFQ" 4 2026
        [⟨[{ createdAt := { year := 2026, month := 4, day := 10, msOfDay := 0 }
             number := "2/RFQ/STM/IV/2026" },
           { createdAt := { year := 2026, month := 4, day := 12, msOfDay := 7200000 }
             number := "junk" },
           { createdAt := { year := 2026, month := 4, day := 15, msOfDay := 3600000 }
             number := "7/RFQ/STM/IV/2026" }]⟩] =
      some "8/RFQ/STM/IV/2026" ∧
    romanMonths 4 = romanSpec 4 := by
  have h := C3_sequenceGenerator "RFQ" 4 2026
    [⟨[{ createdAt := { year := 2026, month := 4, day := 10, msOfDay := 0 }
         number := "2/RFQ/STM/IV/2026" },
       { createdAt := { year := 2026, month := 4, day := 12, msOfDay := 7200000 }
         number := "junk" },
       { createdAt := { year := 2026, month := 4, day := 15, msOfDay := 3600000 }
         number := "7/RFQ/STM/IV/2026" }]⟩]
    "8/RFQ/STM/IV/2026" (by decide) (by decide)
  exact ⟨by decide, h.1⟩

/-! ### C4: approval authorization and one-way state machine -/

/-- Claim C4: for every RFQ and actor X, approve and reject fail
NotAuthorized whenever X is not the RFQ's approver (the capability
middleware aside, no other capability of X appears in the guard), fail
InvalidState for the approver whenever the status is not pending, and
from pending the second of a reject/approve pair fails InvalidState
while the terminal status is the first call's. -/
theorem C4_approvalGuards (r : RFQDoc) (x : Nat) (notes notes2 : Option String)
    (now now2 : Int) :
    (r.approverId ≠ x →
      approveRoute (some r) x notes now = .notAuthorized ∧
      rejectRoute (some r) x notes now = .notAuthorized) ∧
    (r.approverId = x → r.status ≠ "pending" →
      approveRoute (some r) x notes now = .invalidState ∧
      rejectRoute (some r) x notes now = .invalidState) ∧
    (r.approverId = x → r.status = "pending" →
      ∃ r2, rejectRoute (some r) x notes now = .ok r2 ∧
        r2.status = "rejected" ∧ r2.isApproved = false ∧
        approveRoute (some r2) x notes2 now2 = .invalidState) ∧
    (r.approverId = x → r.status = "pending" →
      ∃ r2, approveRoute (some r) x notes now = .ok r2 ∧
        r2.status = "approved" ∧ r2.isApproved = true ∧
        rejectRoute (some r2) x notes2 now2 = .invalidState) := by
  refine ⟨?_, ?_, ?_, ?_⟩
  · intro hne
    constructor <;> simp [approveRoute, rejectRoute, hne]
  · intro heq hst
    constructor <;> simp [approveRoute, rejectRoute, heq, hst]
  · intro heq hst
    refine ⟨{ r with
      status := "rejected"
      isApproved := false
      rejectedAt := some now
      approvalDecision := some "no_bid"
      approvalNotes := notes.getD "" }, ?_, rfl, rfl, ?_⟩
    · simp [rejectRoute, heq, hst]
    · simp [approveRoute, heq]
  · intro heq hst
    refine ⟨{ r with
      status := "approved"
      isApproved := true
      approvedAt := some now
      approvalDecision := some "bid"
      approvalNotes := notes.getD "" }, ?_, rfl, rfl, ?_⟩
    · simp [approveRoute, heq, hst]
    · simp [rejectRoute, heq]

/-- Witness for C4 at a concrete pending RFQ with approver 2: actor 9
is turned away, actor 2 rejects, and the later approve is refused. -/
theorem C4_approvalGuards_witness :
    approveRoute (some rfqBase) 9 none 0 = .notAuthorized ∧
    ∃ r2, rejectRoute (some rfqBase) 2 none 0 = .ok r2 ∧
      r2.status = "rejected" ∧ approveRoute (some r2) 2 none 1 = .invalidState := by
  constructor
  · exact ((C4_approvalGuards rfqBase 9 none none 0 1).1 (by decide)).1
  · obtain ⟨r2, h1, h2, _, h4⟩ :=
      (C4_approvalGuards rfqBase 2 none none 0 1).2.2.1 (by decide) (by decide)
    exact ⟨r2, h1, h2, h4⟩

/-! ### C7: offer-item deletion and renumbering -/

/-- Four items of offer 10, numbered 1 to 4. -/
def c7Items : List OfferItem :=
  [{ itemBase with id := 1, quotationOfferId := 10, itemNumber := 1 },
   { itemBase with id := 2, quotationOfferId := 10, itemNumber := 2 },
   { itemBase with id := 3, quotationOfferId := 10, itemNumber := 3 },
   { itemBase with id := 4, quotationOfferId := 10, itemNumber := 4 }]

/-- The offer owning the four items. -/
def c7Offer : Offer :=
  { offerBase with id := 10 }

/-- Counterexample to C7 as stated: deleting the item numbered 2 from
an offer numbered [1,2,3,4] leaves the remaining items numbered
[1,3,4] — the delete route (quotation.js lines 1121-1153) performs no
renumbering, so the dense sequence [1,2,3] the claim demands does not
appear. -/
theorem C7_counterexample :
    (match deleteOfferItemRoute c7Items [c7Offer] 10 2 with
      | .ok rem _ => rem.map (fun it => it.itemNumber)
      | .notFound => []) = [1, 3, 4] ∧
    ([1, 3, 4] : List Nat) ≠ [1, 2, 3] := by
  decide

/-- The dense renumbering loop yields exactly 1..N. -/
theorem renumberDense_numbers (l : List RFQItemDoc) :
    (renumberDense l).map (fun it => it.itemNumber) =
      (List.range (renumberDense l).length).map (fun i => i + 1) := by
  unfold renumberDense
  rw [List.map_map, List.length_map, List.enum_length,
    ← List.enum_map_fst (sortByNumber l), List.map_map]
  rfl

/-- Claim C7 amended: the offer-item delete route removes the item and
re-saves the offer (recomputing its totals from the remaining items)
but leaves every remaining sibling row — its `itemNumber` included —
unchanged, so gaps persist; the dense 1..N renumbering ordered by prior
`itemNumber` is performed only by `deleteRFQItem` for RFQ items. -/
theorem C7_itemDeletion (itemsDb : List OfferItem) (offers : List Offer)
    (offerId itemId : Nat) (rfqItems : List RFQItemDoc) (rfqItemId : Nat)
    (sib others : List RFQItemDoc) :
    (itemsDb.any (fun it => it.id == itemId) = true →
      deleteOfferItemRoute itemsDb offers offerId itemId =
        .ok (itemsDb.filter (fun it => it.id ≠ itemId))
          (offers.map (fun o =>
            if o.id == offerId then
              offerSave false o (itemsDb.filter (fun it => it.id ≠ itemId))
            else o))) ∧
    (deleteRFQItem rfqItems rfqItemId = .ok (sib, others) →
      sib.map (fun it => it.itemNumber) = (List.range sib.length).map (fun i => i + 1)) := by
  constructor
  · intro h
    unfold deleteOfferItemRoute
    rw [if_pos h]
  · intro h
    unfold deleteRFQItem at h
    cases hfind : rfqItems.find? (fun it => it.id == rfqItemId) with
    | none => rw [hfind] at h; exact absurd h (by simp)
    | some victim =>
      rw [hfind] at h
      have hsib : sib = renumberDense
          ((rfqItems.filter (fun it => it.id ≠ rfqItemId)).filter
            (fun it => it.rfqId == victim.rfqId)) := by
        injection h with h2
        injection h2 with h3 _
        exact h3.symm
      rw [hsib]
      exact renumberDense_numbers _

/-- Witness for C7 amended: deleting item 2 of the concrete [1,2,3,4]
offer keeps numbers [1,3,4] with recomputed totals, while deleting an
RFQ item renumbers its siblings densely to [1,2,3]. -/
theorem C7_itemDeletion_witness :
    deleteOfferItemRoute c7Items [c7Offer] 10 2 =
      .ok (c7Items.filter (fun it => it.id ≠ 2))
        ([c7Offer].map (fun o =>
          if o.id == 10 then offerSave false o (c7Items.filter (fun it => it.id ≠ 2))
          else o)) ∧
    ∃ sib others,
      deleteRFQItem
        [{ rfqItemBase with id := 1, rfqId := 5, itemNumber := 1 },
         { rfqItemBase with id := 2, rfqId := 5, itemNumber := 2 },
         { rfqItemBase with id := 3, rfqId := 5, itemNumber := 3 },
         { rfqItemBase with id := 4, rfqId := 5, itemNumber := 4 }] 2 = .ok (sib, others) ∧
      sib.map (fun it => it.itemNumber) = [1, 2, 3] := by
  constructor
  · exact (C7_itemDeletion c7Items [c7Offer] 10 2 [] 0 [] []).1 (by decide)
  · refine ⟨renumberDense
      [{ rfqItemBase with id := 1, rfqId := 5, itemNumber := 1 },
       { rfqItemBase with id := 3, rfqId := 5, itemNumber := 3 },
       { rfqItemBase with id := 4, rfqId := 5, itemNumber := 4 }], [], by decide, ?_⟩
    have h := (C7_itemDeletion [] [] 0 0
      [{ rfqItemBase with id := 1, rfqId := 5, itemNumber := 1 },
       { rfqItemBase with id := 2, rfqId := 5, itemNumber := 2 },
       { rfqItemBase with id := 3, rfqId := 5, itemNumber := 3 },
       { rfqItemBase with id := 4, rfqId := 5, itemNumber := 4 }] 2
      (renumberDense
        [{ rfqItemBase with id := 1, rfqId := 5, itemNumber := 1 },
         { rfqItemBase with id := 3, rfqId := 5, itemNumber := 3 },
         { rfqItemBase with id := 4, rfqId := 5, itemNumber := 4 }]) []).2 (by decide)
    rw [h]
    decide

/-! ### C5: revision creation -/

/-- Offer 10 of header 1, cached flags all false. -/
def c1Offer : Offer :=
  { offerBase with
    id := 10
    quotationHeaderId := 1 }

/-- A quotation with one offer and two unaccepted items. -/
def c1St : QuotationState :=
  { header := { headerBase with id := 1 }
    offers := [c1Offer]
    items := [{ itemBase with id := 101, quotationOfferId := 10, itemNumber := 1 },
              { itemBase with id := 102, quotationOfferId := 10, itemNumber := 2 }] }

/-- Counterexample to C1 as stated: a win update selecting item 101 of
offer 10 leaves one accepted and one unaccepted item, yet the offer's
cached `isPartiallyAccepted` stays `false` — the status route
(quotation.js lines 789-803) never saves the offer, so no totals
recompute happens and the cached flag does not become true. -/
theorem C1_counterexample :
    (match setStatus c1St "win" none (some 10) [101] 99 7 with
      | .ok st2 =>
        ((st2.items.filter (fun it => it.quotationOfferId == 10 && it.isAccepted)).length,
         (st2.items.filter (fun it => it.quotationOfferId == 10 && !it.isAccepted)).length,
         st2.offers.map (fun o => o.isPartiallyAccepted))
      | .validationError => (0, 0, [])) = (1, 1, [false]) := by
  decide

/-- Claim C1 amended: the win update with a selected offer succeeds,
sets every item of that offer to `isAccepted = (id ∈
selectedOfferItemIds)` with `acceptedAt`/`acceptedBy` stamped on
selected items and cleared on the others, records the selection on the
header, leaves items of other offers alone — and leaves the offers
store, the selected offer's cached totals and its
`isPartiallyAccepted`/`isFullyAccepted` flags included, entirely
untouched (no totals recompute is triggered). -/
theorem C1_winAcceptance (st : QuotationState) (reason : Option String) (oid : Nat)
    (sel : List Nat) (now : Int) (uid : Nat) :
    setStatus st "win" reason (some oid) sel now uid =
      .ok { st with
        header := { st.header with
          status := { type := "win", reason := reason.getD "" }
          selectedOfferId := some oid
          selectedOfferItemIds := sel }
        items := st.items.map (winUpdateItem oid sel now uid) } ∧
    (∀ it : OfferItem, it.quotationOfferId = oid →
      ((winUpdateItem oid sel now uid it).isAccepted = true ↔ it.id ∈ sel) ∧
      (winUpdateItem oid sel now uid it).acceptedAt =
        (if it.id ∈ sel then some now else none) ∧
      (winUpdateItem oid sel now uid it).acceptedBy =
        (if it.id ∈ sel then some uid else none)) ∧
    (∀ it : OfferItem, it.quotationOfferId ≠ oid → winUpdateItem oid sel now uid it = it) := by
  refine ⟨?_, ?_, ?_⟩
  · simp [setStatus]
  · intro it hoid
    have hcond : (it.quotationOfferId == oid) = true := by simp [hoid]
    unfold winUpdateItem
    rw [if_pos hcond]
    refine ⟨by simp, rfl, rfl⟩
  · intro it hoid
    have hcond : ¬ (it.quotationOfferId == oid) = true := by simp [hoid]
    unfold winUpdateItem
    rw [if_neg hcond]

/-- Witness for C1 amended at the concrete quotation: the update
succeeds with the mapped items and the selected item 101 comes out
accepted. -/
theorem C1_winAcceptance_witness :
    setStatus c1St "win" none (some 10) [101] 99 7 =
      .ok { c1St with
        header := { c1St.header with
          status := { type := "win", reason := "" }
          selectedOfferId := some 10
          selectedOfferItemIds := [101] }
        items := c1St.items.map (winUpdateItem 10 [101] 99 7) } ∧
    (winUpdateItem 10 [101] 99 7
      { itemBase with id := 101, quotationOfferId := 10 }).isAccepted = true := by
  have h := C1_winAcceptance c1St none 10 [101] 99 7
  refine ⟨h.1, ?_⟩
  exact ((h.2.1 { itemBase with id := 101, quotationOfferId := 10 } rfl).1).mpr (by decide)

/-! ### C6: RFQ conversion -/

/-- Fields of created item rows that copy the (formatted) input,
independent of position. -/
theorem createItemRows_map_field {α : Type} (f : OfferItem → α) (g : OfferItemInput → α)
    (hfg : ∀ inp offerId itemId num, f (mkOfferItem inp offerId itemId num) = g inp) :
    ∀ (inputs : List OfferItemInput) (offerId nextId nextNum : Nat),
      (createItemRows inputs offerId nextId nextNum).map f = inputs.map g := by
  intro inputs
  induction inputs with
  | nil => intro offerId nextId nextNum; rfl
  | cons inp rest ih =>
    intro offerId nextId nextNum
    simp only [createItemRows, List.map_cons, hfg, ih]

/-- Every created row is tagged with the new offer's id. -/
theorem createItemRows_offerId :
    ∀ (inputs : List OfferItemInput) (offerId nextId nextNum : Nat),
      ∀ it ∈ createItemRows inputs offerId nextId nextNum, it.quotationOfferId = offerId := by
  intro inputs
  induction inputs with
  | nil => intro offerId nextId nextNum it hit; exact absurd hit (by simp [createItemRows])
  | cons inp rest ih =>
    intro offerId nextId nextNum it hit
    rcases List.mem_cons.1 hit with h | h
    · rw [h]; rfl
    · exact ih offerId (nextId + 1) (nextNum + 1) it h

/-- The created rows carry the dense numbers `nextNum, nextNum+1, …`. -/
theorem createItemRows_numbers :
    ∀ (inputs : List OfferItemInput) (offerId nextId nextNum : Nat),
      (createItemRows inputs offerId nextId nextNum).map (fun it => it.itemNumber) =
        (List.range inputs.length).map (fun j => nextNum + j) := by
  intro inputs
  induction inputs with
  | nil => intro offerId nextId nextNum; rfl
  | cons inp rest ih =>
    intro offerId nextId nextNum
    simp only [createItemRows, List.map_cons, List.length_cons, List.range_succ_eq_map,
      List.map_map, ih]
    refine congrArg (fun l => _ :: l) ?_
    refine List.map_congr_left (fun j hj => ?_)
    simp only [Function.comp_apply]
    omega

/-- The live items of a freshly created offer are exactly its new rows
when no pre-existing item carries the new id. -/
theorem liveItems_append_fresh (o : Offer) (itemsDb rows : List OfferItem)
    (hdb : ∀ it ∈ itemsDb, it.quotationOfferId ≠ o.id)
    (hrows : ∀ it ∈ rows, it.quotationOfferId = o.id) :
    liveItems o (itemsDb ++ rows) = rows := by
  unfold liveItems
  rw [List.filter_append]
  have h1 : itemsDb.filter (fun it => it.quotationOfferId == o.id) = [] := by
    rw [List.filter_eq_nil_iff]
    intro it hit
    simp [hdb it hit]
  have h2 : rows.filter (fun it => it.quotationOfferId == o.id) = rows := by
    rw [List.filter_eq_self]
    intro it hit
    simp [hrows it hit]
  rw [h1, h2, List.nil_append]

/-- The first save of a new offer is the identity (the pre-save hook
skips new documents). -/
theorem offerSave_true (o : Offer) (db : List OfferItem) : offerSave true o db = o := rfl

/-- Saving a non-new offer over a store extended with its fresh rows
recomputes from exactly those rows. -/
theorem offerSave_fresh (o : Offer) (itemsDb rows : List OfferItem)
    (hdb : ∀ it ∈ itemsDb, it.quotationOfferId ≠ o.id)
    (hrows : ∀ it ∈ rows, it.quotationOfferId = o.id) :
    offerSave false o (itemsDb ++ rows) = recomputeTotals o rows := by
  show recomputeTotals o (liveItems o (itemsDb ++ rows)) = recomputeTotals o rows
  rw [liveItems_append_fresh o itemsDb rows hdb hrows]

/-- The creation tail with at least one item: the new rows are the
created rows and the saved offer carries the totals recomputed from
exactly those rows. -/
theorem buildOfferAndItems_totals (itemsDb : List OfferItem) (header : QuotationHeader)
    (input : OfferInput) (inputs : List OfferItemInput) (oid ibase : Nat)
    (num : String) (slot rev : Nat) (pq : Option Nat) (imgs : List Nat)
    (hfresh : ∀ it ∈ itemsDb, it.quotationOfferId ≠ oid)
    (hlen : inputs.length > 0) :
    (buildOfferAndItems itemsDb header input inputs oid ibase num slot rev pq imgs).2 =
      createItemRows inputs oid ibase 1 ∧
    (buildOfferAndItems itemsDb header input inputs oid ibase num slot rev pq
        imgs).1.totalPrice =
      ((createItemRows inputs oid ibase 1).map (fun it => it.price)).sum ∧
    (buildOfferAndItems itemsDb header input inputs oid ibase num slot rev pq
        imgs).1.totalNetto =
      ((createItemRows inputs oid ibase 1).map (fun it => it.netto)).sum ∧
    (buildOfferAndItems itemsDb header input inputs oid ibase num slot rev pq
        imgs).1.totalDiscount =
      ((createItemRows inputs oid ibase 1).map (fun it => it.price)).sum -
        ((createItemRows inputs oid ibase 1).map (fun it => it.netto)).sum ∧
    (buildOfferAndItems itemsDb header input inputs oid ibase num slot rev pq
        imgs).1.totalItemsCount = (createItemRows inputs oid ibase 1).length ∧
    (buildOfferAndItems itemsDb header input inputs oid ibase num slot rev pq
        imgs).1.acceptedItemsCount =
      ((createItemRows inputs oid ibase 1).filter (fun it => it.isAccepted)).length := by
  have hsave : ∀ o : Offer, o.id = oid →
      offerSave false o (itemsDb ++ createItemRows inputs oid ibase 1) =
        recomputeTotals o (createItemRows inputs oid ibase 1) := by
    intro o ho
    refine offerSave_fresh o itemsDb (createItemRows inputs oid ibase 1) ?_ ?_
    · intro it hit; rw [ho]; exact hfresh it hit
    · intro it hit; rw [ho]; exact createItemRows_offerId inputs oid ibase 1 it hit
  unfold buildOfferAndItems
  rw [if_pos hlen]
  dsimp only [offerSave_true]
  rw [hsave _ rfl]
  exact ⟨rfl, rfl, rfl, rfl, rfl, rfl⟩

/-- Created rows stay unaccepted when every input is unaccepted. -/
theorem createItemRows_accepted :
    ∀ (inputs : List OfferItemInput) (offerId nextId nextNum : Nat),
      (∀ inp ∈ inputs, inp.isAccepted = false) →
      ∀ it ∈ createItemRows inputs offerId nextId nextNum, it.isAccepted = false := by
  intro inputs
  induction inputs with
  | nil => intro offerId nextId nextNum _ it hit; exact absurd hit (by simp [createItemRows])
  | cons inp rest ih =>
    intro offerId nextId nextNum h it hit
    rcases List.mem_cons.1 hit with hh | hh
    · rw [hh]
      exact h inp (List.mem_cons_self _ _)
    · exact ih offerId (nextId + 1) (nextNum + 1)
        (fun i hi => h i (List.mem_cons_of_mem _ hi)) it hh

/-- One row is created per input. -/
theorem createItemRows_length :
    ∀ (inputs : List OfferItemInput) (offerId nextId nextNum : Nat),
      (createItemRows inputs offerId nextId nextNum).length = inputs.length := by
  intro inputs
  induction inputs with
  | nil => intro offerId nextId nextNum; rfl
  | cons inp rest ih =>
    intro offerId nextId nextNum
    simp only [createItemRows, List.length_cons, ih]

/-- Claim C6 amended: converting an approved RFQ by its designated
creator maps each RFQ item to an offer item with `price ← price`,
`netto ← priceNet`, `discountType = "percentage"`,
`discountValue = 0`, specifications/drawing/notes carried through
unchanged, `karoseri`/`chassis` carried through trimmed and uppercased
by the storage formatter, and `itemNumber` re-sequenced 1..N in item
order; the new offer's recomputed totals are the sums of the item
prices and nettos with the discount their difference and no item
accepted; and the RFQ afterwards has status `quotation_created` and a
non-null `quotationId` pointing at the new header. -/
theorem C6_conversion (r : RFQDoc) (rfqItems : List RFQItemDoc) (actorId : Nat)
    (hoCust mkt : String) (input : OfferInput) (callerItems : List OfferItemInput)
    (offers : List Offer) (itemsDb : List OfferItem)
    (m y : Nat) (snaps : List DbSnapshot) (hid oid ibase : Nat) (now : Int)
    (header : QuotationHeader) (offer : Offer) (newItems : List OfferItem) (rfq2 : RFQDoc)
    (hst : r.status = "approved") (hauth : r.quotationCreatorId = actorId)
    (hfresh : ∀ it ∈ itemsDb, it.quotationOfferId ≠ oid)
    (hne : rfqItems ≠ [])
    (hok : convertRFQ (some r) rfqItems actorId hoCust mkt input callerItems offers itemsDb
      m y snaps hid oid ibase now = .ok header offer newItems rfq2) :
    newItems.map (fun it => it.price) = rfqItems.map (fun it => it.price) ∧
    newItems.map (fun it => it.netto) = rfqItems.map (fun it => it.priceNet) ∧
    newItems.map (fun it => it.discountType) = rfqItems.map (fun _ => "percentage") ∧
    newItems.map (fun it => it.discountValue) = rfqItems.map (fun _ => (0 : Int)) ∧
    newItems.map (fun it => it.specifications) = rfqItems.map (fun it => it.specifications) ∧
    newItems.map (fun it => it.notes) = rfqItems.map (fun it => it.notes) ∧
    newItems.map (fun it => it.drawingSpecification) =
      rfqItems.map (fun it => it.drawingSpecification) ∧
    newItems.map (fun it => it.karoseri) =
      rfqItems.map (fun it => jsToUpper (jsTrim it.karoseri)) ∧
    newItems.map (fun it => it.chassis) =
      rfqItems.map (fun it => jsToUpper (jsTrim it.chassis)) ∧
    newItems.map (fun it => it.itemNumber) =
      (List.range rfqItems.length).map (fun j => 1 + j) ∧
    offer.totalPrice = (rfqItems.map (fun it => it.price)).sum ∧
    offer.totalNetto = (rfqItems.map (fun it => it.priceNet)).sum ∧
    offer.totalDiscount = offer.totalPrice - offer.totalNetto ∧
    offer.totalItemsCount = rfqItems.length ∧
    offer.acceptedItemsCount = 0 ∧
    rfq2.status = "quotation_created" ∧
    rfq2.quotationId = some header.id := by
  have hlen : rfqItems.length > 0 := by
    cases rfqItems with
    | nil => exact absurd rfl hne
    | cons a l => simp
  unfold convertRFQ at hok
  dsimp only at hok
  rw [if_neg (by simp [hst]), if_neg (by simp [hauth]), if_pos hlen] at hok
  cases hgen : generateNumber "QUO" m y snaps with
  | none =>
    rw [hgen] at hok
    exact absurd hok (by simp)
  | some q =>
    rw [hgen] at hok
    dsimp only at hok
    cases hcr : createQuotationOffer offers itemsDb
        (createQuotationHeaderRow q (if hoCust = "" then r.customerName else hoCust)
          r.contactPersonName r.requesterId r.approverId r.quotationCreatorId mkt hid now)
        input (rfqItems.map rfqItemToOfferInput) none oid ibase with
    | error msg =>
      rw [hcr] at hok
      exact absurd hok (by simp)
    | ok p =>
      obtain ⟨po, pits⟩ := p
      rw [hcr] at hok
      dsimp only at hok
      injection hok with h1 h2 h3 h4
      subst h1
      subst h2
      subst h3
      subst h4
      -- analyse the offer creation
      unfold createQuotationOffer at hcr
      cases hgn : genOfferNumberNew offers
          (createQuotationHeaderRow q (if hoCust = "" then r.customerName else hoCust)
            r.contactPersonName r.requesterId r.approverId r.quotationCreatorId mkt hid
            now).id
          (createQuotationHeaderRow q (if hoCust = "" then r.customerName else hoCust)
            r.contactPersonName r.requesterId r.approverId r.quotationCreatorId mkt hid
            now).quotationNumber with
      | error msg =>
        rw [hgn] at hcr
        exact absurd hcr (by simp)
      | ok pn =>
        obtain ⟨num, slot⟩ := pn
        rw [hgn] at hcr
        dsimp only at hcr
        injection hcr with hcr
        have hpo : po = (buildOfferAndItems itemsDb
            (createQuotationHeaderRow q (if hoCust = "" then r.customerName else hoCust)
              r.contactPersonName r.requesterId r.approverId r.quotationCreatorId mkt hid now)
            input (rfqItems.map rfqItemToOfferInput) oid ibase num slot 0 none
            input.notesImages).1 := by rw [hcr]
        have hpits : pits = (buildOfferAndItems itemsDb
            (createQuotationHeaderRow q (if hoCust = "" then r.customerName else hoCust)
              r.contactPersonName r.requesterId r.approverId r.quotationCreatorId mkt hid now)
            input (rfqItems.map rfqItemToOfferInput) oid ibase num slot 0 none
            input.notesImages).2 := by rw [hcr]
        have hlen2 : (rfqItems.map rfqItemToOfferInput).length > 0 := by
          rw [List.length_map]; exact hlen
        obtain ⟨hb2, hbp, hbn, hbd, hbc, hba⟩ := buildOfferAndItems_totals itemsDb
          (createQuotationHeaderRow q (if hoCust = "" then r.customerName else hoCust)
            r.contactPersonName r.requesterId r.approverId r.quotationCreatorId mkt hid now)
          input (rfqItems.map rfqItemToOfferInput) oid ibase num slot 0 none
          input.notesImages hfresh hlen2
        have hrows : pits = createItemRows (rfqItems.map rfqItemToOfferInput) oid ibase 1 := by
          rw [hpits, hb2]
        have hmapP : pits.map (fun it => it.price) = rfqItems.map (fun it => it.price) := by
          rw [hrows, createItemRows_map_field (fun it => it.price) (fun inp => inp.price)
            (fun _ _ _ _ => rfl), List.map_map]
          rfl
        have hmapN : pits.map (fun it => it.netto) = rfqItems.map (fun it => it.priceNet) := by
          rw [hrows, createItemRows_map_field (fun it => it.netto) (fun inp => inp.netto)
            (fun _ _ _ _ => rfl), List.map_map]
          rfl
        have hmapAcc : ∀ it ∈ pits, it.isAccepted = false := by
          rw [hrows]
          refine createItemRows_accepted (rfqItems.map rfqItemToOfferInput) oid ibase 1 ?_
          intro inp hinp
          obtain ⟨it, _, hit⟩ := List.mem_map.1 hinp
          rw [← hit]
          rfl
        have hfilterAcc : pits.filter (fun it => it.isAccepted) = [] := by
          rw [List.filter_eq_nil_iff]
          intro it hit
          simp [hmapAcc it hit]
        refine ⟨hmapP, hmapN, ?_, ?_, ?_, ?_, ?_, ?_, ?_, ?_, ?_, ?_, ?_, ?_, ?_, rfl, rfl⟩
        · rw [hrows, createItemRows_map_field (fun it => it.discountType)
            (fun inp => inp.discountType) (fun _ _ _ _ => rfl), List.map_map]
          rfl
        · rw [hrows, createItemRows_map_field (fun it => it.discountValue)
            (fun inp => inp.discountValue) (fun _ _ _ _ => rfl), List.map_map]
          rfl
        · rw [hrows, createItemRows_map_field (fun it => it.specifications)
            (fun inp => inp.specifications) (fun _ _ _ _ => rfl), List.map_map]
          rfl
        · rw [hrows, createItemRows_map_field (fun it => it.notes)
            (fun inp => inp.notes) (fun _ _ _ _ => rfl), List.map_map]
          rfl
        · rw [hrows, createItemRows_map_field (fun it => it.drawingSpecification)
            (fun inp => inp.drawingSpecification) (fun _ _ _ _ => rfl), List.map_map]
          rfl
        · rw [hrows, createItemRows_map_field (fun it => it.karoseri)
            (fun inp => jsToUpper (jsTrim inp.karoseri)) (fun _ _ _ _ => rfl), List.map_map]
          rfl
        · rw [hrows, createItemRows_map_field (fun it => it.chassis)
            (fun inp => jsToUpper (jsTrim inp.chassis)) (fun _ _ _ _ => rfl), List.map_map]
          rfl
        · rw [hrows, createItemRows_numbers, List.length_map]
        · rw [hpo, hbp, ← hrows, hmapP]
        · rw [hpo, hbn, ← hrows, hmapN]
        · rw [hpo, hbp, hbn, hbd]
        · rw [hpo, hbc, createItemRows_length, List.length_map]
        · rw [hpo, hba, ← hrows, hfilterAcc]
          rfl

/-- An approved RFQ (creator 3) ready for conversion. -/
def c6Rfq : RFQDoc :=
  { rfqBase with
    id := 50
    status := "approved" }

/-- The two items of the end-to-end scenario. -/
def c6Items : List RFQItemDoc :=
  [{ rfqItemBase with
      id := 61
      rfqId := 50
      itemNumber := 1
      karoseri := "A"
      chassis := "C1"
      price := 100
      priceNet := 90 },
   { rfqItemBase with
      id := 62
      rfqId := 50
      itemNumber := 2
      karoseri := "B"
      chassis := "C2"
      price := 200
      priceNet := 180 }]

/-- An approved RFQ whose single item has lowercase karoseri. -/
def c6RfqLower : RFQDoc :=
  { rfqBase with
    id := 51
    status := "approved" }

/-- The single lowercase-karoseri item. -/
def c6ItemLower : List RFQItemDoc :=
  [{ rfqItemBase with
      id := 63
      rfqId := 51
      itemNumber := 1
      karoseri := "abc"
      chassis := "C1"
      price := 100
      priceNet := 90 }]

/-- Counterexample to C6 as stated: the conversion does not carry
`karoseri` through unchanged — `formatDataForStorage` (quotation
helper lines 318-325) trims and uppercases it, so the RFQ item with
karoseri "abc" becomes "ABC" in the offer item. -/
theorem C6_counterexample :
    (match convertRFQ (some c6RfqLower) c6ItemLower 3 "" "MKT" OfferInput.default [] [] []
        1 2026 [⟨[]⟩] 200 300 400 77 with
      | .ok _ _ items _ => items.map (fun it : OfferItem => it.karoseri)
      | _ => []) = ["ABC"] ∧
    (["ABC"] : List String) ≠ ["abc"] ∧
    c6ItemLower.map (fun it => it.karoseri) = ["abc"] := by
  decide

/-- The header produced by the concrete conversion. -/
def c6HeaderOut : QuotationHeader :=
  { headerBase with
    id := 200
    quotationNumber := "1/QUO/STM/I/2026"
    marketingName := "MKT"
    lastFollowUpDate := some 77 }

/-- The offer produced by the concrete conversion. -/
def c6OfferOut : Offer :=
  { offerBase with
    id := 300
    quotationHeaderId := 200
    offerNumber := "1/QUO/STM/I/2026-1"
    offerNumberInQuotation := 1
    totalPrice := 300
    totalNetto := 270
    totalDiscount := 30
    acceptedItemsCount := 0
    totalItemsCount := 2 }

/-- The offer items produced by the concrete conversion. -/
def c6ItemsOut : List OfferItem :=
  [{ itemBase with
      id := 400
      quotationOfferId := 300
      itemNumber := 1
      karoseri := "A"
      chassis := "C1"
      price := 100
      netto := 90
      notes := "" },
   { itemBase with
      id := 401
      quotationOfferId := 300
      itemNumber := 2
      karoseri := "B"
      chassis := "C2"
      price := 200
      netto := 180
      notes := "" }]

/-- The RFQ after the concrete conversion. -/
def c6RfqOut : RFQDoc :=
  { rfqBase with
    id := 50
    status := "quotation_created"
    quotationId := some 200
    quotationCreatedAt := some 77 }

/-- Witness for C6 amended: the spec's end-to-end scenario — two items
(100/90 and 200/180) on an approved RFQ — converts into an offer with
totals 300/270/30, 2 items, none accepted, and the RFQ ends
`quotation_created` with a non-null `quotationId`. -/
theorem C6_conversion_witness :
    convertRFQ (some c6Rfq) c6Items 3 "" "MKT" OfferInput.default [] [] []
      1 2026 [⟨[]⟩] 200 300 400 77 =
      .ok c6HeaderOut c6OfferOut c6ItemsOut c6RfqOut ∧
    c6OfferOut.totalPrice = 300 ∧ c6OfferOut.totalNetto = 270 ∧
    c6OfferOut.totalDiscount = 30 ∧ c6OfferOut.totalItemsCount = 2 ∧
    c6OfferOut.acceptedItemsCount = 0 ∧
    c6RfqOut.status = "quotation_created" ∧
    c6RfqOut.quotationId = some c6HeaderOut.id ∧ c6RfqOut.quotationId ≠ none := by
  have heq : convertRFQ (some c6Rfq) c6Items 3 "" "MKT" OfferInput.default [] [] []
      1 2026 [⟨[]⟩] 200 300 400 77 =
      .ok c6HeaderOut c6OfferOut c6ItemsOut c6RfqOut := by decide
  have h := C6_conversion c6Rfq c6Items 3 "" "MKT" OfferInput.default [] [] []
    1 2026 [⟨[]⟩] 200 300 400 77 c6HeaderOut c6OfferOut c6ItemsOut c6RfqOut
    (by decide) (by decide) (by intro it hit; exact absurd hit (by simp)) (by decide) heq
  refine ⟨heq, ?_, ?_, ?_, ?_, ?_, ?_, ?_, ?_⟩
  · rw [h.2.2.2.2.2.2.2.2.2.2.1]
    decide
  · rw [h.2.2.2.2.2.2.2.2.2.2.2.1]
    decide
  · exact h.2.2.2.2.2.2.2.2.2.2.2.2.1
  · rw [h.2.2.2.2.2.2.2.2.2.2.2.2.2.1]
    decide
  · exact h.2.2.2.2.2.2.2.2.2.2.2.2.2.2.1
  · exact h.2.2.2.2.2.2.2.2.2.2.2.2.2.2.2.1
  · exact h.2.2.2.2.2.2.2.2.2.2.2.2.2.2.2.2
  · rw [h.2.2.2.2.2.2.2.2.2.2.2.2.2.2.2.2]
    simp
